import Mathlib

/-!
Shallow embedding of the SafeStride behavioral anomaly scoring engine.

Source files embedded here:
- backend/src/services/behaviorAnalysis.ts (scalar-baseline scorer, profile EMA update)
- backend/src/services/mlService.ts        (rolling-history z-score scorer)
- backend/src/services/userService.ts      (session ledger, flag log)
- backend/src/routes/behavior.ts           (POST /analyze handler pipeline)

Modelling conventions:
- JavaScript numbers are modelled as rationals (ℚ); all arithmetic in the
  engine is +, -, *, /, abs, min, max, and Math.sqrt.
- Math.sqrt is modelled by Rat.sqrt, which agrees with the real square root
  on perfect-square rationals (every concrete evaluation below uses a
  perfect-square variance) and is nonnegative everywhere, the two facts the
  general theorems rely on.
- Date values are modelled as an abstract tick (ℕ) passed in by the caller.
- The human-readable factor strings (`Typing speed deviation: 12.3%` etc.)
  are modelled by the signal tag paired with the raw per-signal score; the
  toFixed(1) text formatting carries no information used by any property.
- The mutable singleton services become pure state-passing functions.
-/

/-- BehaviorMetrics from backend/src/types/index.ts. -/
structure BehaviorMetrics where
  avgTypingInterval : ℚ
  mouseMovementCount : ℚ
  scrollEventCount : ℚ
  sessionDuration : ℚ
deriving Repr, DecidableEq

/-- BehaviorProfile from backend/src/types/index.ts. -/
structure BehaviorProfile where
  userId : String
  baselineTypingInterval : ℚ
  baselineMouseActivity : ℚ
  baselineScrollPattern : ℚ
  anomalyThreshold : ℚ
  lastUpdated : ℕ
deriving Repr, DecidableEq

/-- The recommendation union type of AnomalyAnalysis. -/
inductive Recommendation where
  | pass
  | reauthenticate
  | lock
deriving Repr, DecidableEq

/-- Which signal a factor string talks about (the prose prefix of the
pushed string: typing / mouse / scroll / session duration). -/
inductive FactorSignal where
  | typing
  | mouse
  | scroll
  | session
deriving Repr, DecidableEq

/-- AnomalyAnalysis from backend/src/types/index.ts; a factor string is
represented by its signal tag and the per-signal score it reports. -/
structure AnomalyAnalysis where
  score : ℚ
  confidence : ℚ
  factors : List (FactorSignal × ℚ)
  recommendation : Recommendation
deriving Repr, DecidableEq

/-- JavaScript Math.min on two numbers, written as an explicit comparison
so that concrete scores evaluate inside the kernel. -/
def jsMin (a b : ℚ) : ℚ :=
  if a ≤ b then a else b

/-- JavaScript Math.max on two numbers. -/
def jsMax (a b : ℚ) : ℚ :=
  if a ≤ b then b else a

/-- The recommendation if-chain shared verbatim by both scorer variants
(behaviorAnalysis.ts lines 69-76, mlService.ts lines 87-94). -/
def recommendationFor (score : ℚ) : Recommendation :=
  if score < 30 then Recommendation.pass
  else if score < 70 then Recommendation.reauthenticate
  else Recommendation.lock

namespace BehaviorAnalysisService

/-- behaviorAnalysis.ts analyzeTypingBehavior (lines 94-104). -/
def analyzeTypingBehavior (currentInterval baselineInterval : ℚ) : ℚ :=
  if baselineInterval = 0 then 0
  else
    let deviation := |currentInterval - baselineInterval| / baselineInterval
    jsMin 100 (deviation * 100)

/-- behaviorAnalysis.ts analyzeMouseBehavior (lines 106-116). -/
def analyzeMouseBehavior (currentActivity baselineActivity : ℚ) : ℚ :=
  if baselineActivity = 0 then 0
  else
    let deviation := |currentActivity - baselineActivity| / baselineActivity
    jsMin 100 (deviation * 100)

/-- behaviorAnalysis.ts analyzeScrollBehavior (lines 118-128). -/
def analyzeScrollBehavior (currentScrolls baselineScrolls : ℚ) : ℚ :=
  if baselineScrolls = 0 then 0
  else
    let deviation := |currentScrolls - baselineScrolls| / baselineScrolls
    jsMin 100 (deviation * 100)

/-- behaviorAnalysis.ts analyzeSessionBehavior (lines 130-137):
sessions shorter than 5000 ms score 30, else 0. -/
def analyzeSessionBehavior (sessionDuration : ℚ) : ℚ :=
  if sessionDuration < 5000 then 30 else 0

/-- behaviorAnalysis.ts analyzeBehavior (lines 18-92): scalar-baseline
scorer. Factors are pushed and weighted contributions added only when the
per-signal score is > 0, in source order typing, mouse, scroll, session. -/
def analyzeBehavior (currentMetrics : BehaviorMetrics)
    (userProfile : BehaviorProfile) : AnomalyAnalysis :=
  let typingScore :=
    analyzeTypingBehavior currentMetrics.avgTypingInterval
      userProfile.baselineTypingInterval
  let mouseScore :=
    analyzeMouseBehavior currentMetrics.mouseMovementCount
      userProfile.baselineMouseActivity
  let scrollScore :=
    analyzeScrollBehavior currentMetrics.scrollEventCount
      userProfile.baselineScrollPattern
  let sessionScore := analyzeSessionBehavior currentMetrics.sessionDuration
  let factors :=
    (if typingScore > 0 then [(FactorSignal.typing, typingScore)] else []) ++
    (if mouseScore > 0 then [(FactorSignal.mouse, mouseScore)] else []) ++
    (if scrollScore > 0 then [(FactorSignal.scroll, scrollScore)] else []) ++
    (if sessionScore > 0 then [(FactorSignal.session, sessionScore)] else [])
  let totalScore :=
    (if typingScore > 0 then typingScore * (2/5) else 0) +
    (if mouseScore > 0 then mouseScore * (3/10) else 0) +
    (if scrollScore > 0 then scrollScore * (1/5) else 0) +
    (if sessionScore > 0 then sessionScore * (1/10) else 0)
  let normalizedScore := jsMin 100 (jsMax 0 totalScore)
  let confidence0 : ℚ := 4/5
  let confidence1 :=
    if currentMetrics.avgTypingInterval = 0 then confidence0 * (7/10)
    else confidence0
  let confidence2 :=
    if currentMetrics.mouseMovementCount = 0 then confidence1 * (4/5)
    else confidence1
  { score := normalizedScore
    confidence := jsMax (1/2) confidence2
    factors := factors
    recommendation := recommendationFor normalizedScore }

/-- behaviorAnalysis.ts updateBaseline (lines 182-188): EMA step. -/
def updateBaseline (currentBaseline newValue learningRate : ℚ) : ℚ :=
  currentBaseline * (1 - learningRate) + newValue * learningRate

/-- behaviorAnalysis.ts updateProfile (lines 156-180): spreads the old
profile and overrides the three baselines and lastUpdated. -/
def updateProfile (currentProfile : BehaviorProfile)
    (newMetrics : BehaviorMetrics) (learningRate : ℚ) (now : ℕ) :
    BehaviorProfile :=
  { currentProfile with
    baselineTypingInterval :=
      updateBaseline currentProfile.baselineTypingInterval
        newMetrics.avgTypingInterval learningRate
    baselineMouseActivity :=
      updateBaseline currentProfile.baselineMouseActivity
        newMetrics.mouseMovementCount learningRate
    baselineScrollPattern :=
      updateBaseline currentProfile.baselineScrollPattern
        newMetrics.scrollEventCount learningRate
    lastUpdated := now }

end BehaviorAnalysisService

namespace MLService

/-- MLUserProfile from mlService.ts (lines 3-12). -/
structure MLUserProfile where
  userId : String
  typingIntervals : List ℚ
  mouseMovements : List ℚ
  scrollEvents : List ℚ
  baselineTypingInterval : ℚ
  baselineMouseActivity : ℚ
  baselineScrollPattern : ℚ
  lastUpdated : ℕ
deriving Repr, DecidableEq

/-- JavaScript arr.slice(-n) for n > 0: the last n elements (the whole
array when it is shorter than n). -/
def sliceLast (l : List ℚ) (n : ℕ) : List ℚ :=
  l.drop (l.length - n)

/-- mlService.ts updateBaseline (lines 162-164). -/
def updateBaseline (current newValue alpha : ℚ) : ℚ :=
  current * (1 - alpha) + newValue * alpha

/-- mlService.ts updateProfile (lines 130-160): push the new data points,
keep only the last 100, EMA-update the baselines, stamp lastUpdated. -/
def updateProfile (profile : MLUserProfile) (metrics : BehaviorMetrics)
    (now : ℕ) : MLUserProfile :=
  let alpha : ℚ := 1/10
  { profile with
    typingIntervals :=
      sliceLast (profile.typingIntervals ++ [metrics.avgTypingInterval]) 100
    mouseMovements :=
      sliceLast (profile.mouseMovements ++ [metrics.mouseMovementCount]) 100
    scrollEvents :=
      sliceLast (profile.scrollEvents ++ [metrics.scrollEventCount]) 100
    baselineTypingInterval :=
      updateBaseline profile.baselineTypingInterval
        metrics.avgTypingInterval alpha
    baselineMouseActivity :=
      updateBaseline profile.baselineMouseActivity
        metrics.mouseMovementCount alpha
    baselineScrollPattern :=
      updateBaseline profile.baselineScrollPattern
        metrics.scrollEventCount alpha
    lastUpdated := now }

/-- The z-score anomaly body shared by calculateTypingAnomaly /
calculateMouseAnomaly / calculateScrollAnomaly (mlService.ts lines
166-206): below 5 samples score 0; otherwise z = |current - mean| / std
(0 when std = 0), scaled by 20 and capped at 100. -/
def zScoreAnomaly (current : ℚ) (history : List ℚ) : ℚ :=
  if history.length < 5 then 0
  else
    let mean := history.sum / (history.length : ℚ)
    let variance :=
      (history.map (fun val => (val - mean) ^ 2)).sum / (history.length : ℚ)
    let std := Rat.sqrt variance
    if std = 0 then 0
    else
      let zScore := |current - mean| / std
      jsMin 100 (zScore * 20)

/-- mlService.ts calculateTypingAnomaly (lines 166-178). -/
def calculateTypingAnomaly (currentInterval : ℚ)
    (profile : MLUserProfile) : ℚ :=
  zScoreAnomaly currentInterval profile.typingIntervals

/-- mlService.ts calculateMouseAnomaly (lines 180-192). -/
def calculateMouseAnomaly (currentMovements : ℚ)
    (profile : MLUserProfile) : ℚ :=
  zScoreAnomaly currentMovements profile.mouseMovements

/-- mlService.ts calculateScrollAnomaly (lines 194-206). -/
def calculateScrollAnomaly (currentScrolls : ℚ)
    (profile : MLUserProfile) : ℚ :=
  zScoreAnomaly currentScrolls profile.scrollEvents

/-- mlService.ts calculateConfidence (lines 208-219): tiers on the minimum
history length across the three signals. -/
def calculateConfidence (profile : MLUserProfile) : ℚ :=
  let dataPoints :=
    min profile.typingIntervals.length
      (min profile.mouseMovements.length profile.scrollEvents.length)
  if dataPoints < 5 then 3/10
  else if dataPoints < 20 then 3/5
  else if dataPoints < 50 then 4/5
  else 19/20

/-- The scoring portion of mlService.ts analyzeBehavior (lines 78-110):
the anomaly scores, recommendation, confidence and factors computed
against a given profile state. -/
def scoreAgainst (profile : MLUserProfile) (behaviorMetrics : BehaviorMetrics) :
    AnomalyAnalysis :=
  let typingScore :=
    calculateTypingAnomaly behaviorMetrics.avgTypingInterval profile
  let mouseScore :=
    calculateMouseAnomaly behaviorMetrics.mouseMovementCount profile
  let scrollScore :=
    calculateScrollAnomaly behaviorMetrics.scrollEventCount profile
  let overallScore :=
    typingScore * (2/5) + mouseScore * (3/10) + scrollScore * (3/10)
  let factors :=
    (if typingScore > 30 then [(FactorSignal.typing, typingScore)] else []) ++
    (if mouseScore > 30 then [(FactorSignal.mouse, mouseScore)] else []) ++
    (if scrollScore > 30 then [(FactorSignal.scroll, scrollScore)] else [])
  { score := jsMin 100 (jsMax 0 overallScore)
    confidence := calculateConfidence profile
    factors := factors
    recommendation := recommendationFor overallScore }

/-- mlService.ts analyzeBehavior (lines 69-111) on one user profile: the
profile is updated FIRST (line 76), then every score, the confidence and
the factors are computed against the already-updated profile. Returns the
analysis together with the new profile state. -/
def analyzeBehavior (profile : MLUserProfile) (behaviorMetrics : BehaviorMetrics)
    (now : ℕ) : AnomalyAnalysis × MLUserProfile :=
  let updated := updateProfile profile behaviorMetrics now
  (scoreAgainst updated behaviorMetrics, updated)

end MLService

/-- Session from backend/src/types/index.ts. -/
structure Session where
  id : String
  userId : String
  startTime : ℕ
  lastActivity : ℕ
  isActive : Bool
  anomalyScore : ℚ
deriving Repr, DecidableEq

/-- FlagLog severity union type. -/
inductive Severity where
  | low
  | medium
  | high
deriving Repr, DecidableEq

/-- FlagLog from backend/src/types/index.ts (the id assigned by
addFlagLog and the free-text description are left out; no property
depends on them). -/
structure FlagLog where
  sessionId : String
  timestamp : ℕ
  type : String
  severity : Severity
  action : String
  resolved : Bool
deriving Repr, DecidableEq

namespace UserService

/-- The sessions map of userService.ts, as a functional map. -/
def SessionStore := String → Option Session

/-- userService.ts updateSessionActivity (lines 153-159): if the session
exists — active or not — stamp lastActivity and store the score; unknown
ids are a no-op. -/
def updateSessionActivity (sessions : SessionStore) (sessionId : String)
    (anomalyScore : ℚ) (now : ℕ) : SessionStore :=
  match sessions sessionId with
  | none => sessions
  | some session =>
      fun key =>
        if key = sessionId then
          some { session with lastActivity := now, anomalyScore := anomalyScore }
        else sessions key

/-- userService.ts endSession (lines 161-166): if the session exists,
set isActive to false; unknown ids are a no-op. -/
def endSession (sessions : SessionStore) (sessionId : String) : SessionStore :=
  match sessions sessionId with
  | none => sessions
  | some session =>
      fun key =>
        if key = sessionId then some { session with isActive := false }
        else sessions key

end UserService

namespace BehaviorRoutes

/-- The flag-raising step of the POST /analyze handler (behavior.ts lines
45-61): when the analysis score exceeds 30, derive severity and action
from the analysis and append an unresolved FlagLog; otherwise leave the
log alone. -/
def flagStep (analysis : AnomalyAnalysis) (sessionId : Option String)
    (flagLogs : List FlagLog) (now : ℕ) : List FlagLog :=
  if analysis.score > 30 then
    let severity :=
      if analysis.score > 70 then Severity.high
      else if analysis.score > 50 then Severity.medium
      else Severity.low
    let action :=
      match analysis.recommendation with
      | Recommendation.lock => "Session locked"
      | Recommendation.reauthenticate => "Request re-authentication"
      | Recommendation.pass => "Monitor"
    flagLogs ++
      [{ sessionId := sessionId.getD "unknown"
         timestamp := now
         type := "session"
         severity := severity
         action := action
         resolved := false }]
  else flagLogs

/-- The POST /analyze handler pipeline (behavior.ts lines 37-75) for one
user: analyze against the stored profile, record the score on the session
when one is given, raise a flag when the score exceeds 30, and only then
EMA-update the stored profile (userService.updateBehaviorProfile with the
default learning rate 0.1). -/
def analyzeHandler (profile : BehaviorProfile) (behaviorMetrics : BehaviorMetrics)
    (sessionId : Option String) (sessions : UserService.SessionStore)
    (flagLogs : List FlagLog) (now : ℕ) :
    AnomalyAnalysis × BehaviorProfile × UserService.SessionStore × List FlagLog :=
  let analysis := BehaviorAnalysisService.analyzeBehavior behaviorMetrics profile
  let sessions1 :=
    match sessionId with
    | some sid => UserService.updateSessionActivity sessions sid analysis.score now
    | none => sessions
  let flagLogs1 := flagStep analysis sessionId flagLogs now
  let updatedProfile :=
    BehaviorAnalysisService.updateProfile profile behaviorMetrics (1/10) now
  (analysis, updatedProfile, sessions1, flagLogs1)

end BehaviorRoutes

/-! Concrete inputs used by counterexamples and witnesses. -/

/-- An ML profile whose three rolling histories each hold k samples of
value 100 (paired samples, as in the mock profiles of mlService.ts). -/
def uniformProfile (k : ℕ) : MLService.MLUserProfile :=
  { userId := "u"
    typingIntervals := List.replicate k 100
    mouseMovements := List.replicate k 100
    scrollEvents := List.replicate k 100
    baselineTypingInterval := 100
    baselineMouseActivity := 100
    baselineScrollPattern := 100
    lastUpdated := 0 }

/-- The uniformProfile 4 state written with literal histories, for
kernel-friendly concrete evaluation of the z-score arithmetic. -/
def fourProfile : MLService.MLUserProfile :=
  { userId := "u"
    typingIntervals := [100, 100, 100, 100]
    mouseMovements := [100, 100, 100, 100]
    scrollEvents := [100, 100, 100, 100]
    baselineTypingInterval := 100
    baselineMouseActivity := 100
    baselineScrollPattern := 100
    lastUpdated := 0 }

/-- A sample whose typing interval jumps to 200 against a history of
100s, with the other signals on-baseline. -/
def jumpMetrics : BehaviorMetrics :=
  { avgTypingInterval := 200, mouseMovementCount := 100,
    scrollEventCount := 100, sessionDuration := 60000 }

/-- The default scalar profile of the spec (typing 250, pointer 50,
scroll 10, threshold 30). -/
def referenceProfile : BehaviorProfile :=
  { userId := "1", baselineTypingInterval := 250, baselineMouseActivity := 50,
    baselineScrollPattern := 10, anomalyThreshold := 30, lastUpdated := 0 }

/-- The extreme-outlier sample of the spec: typing interval 1,000,000
against baseline 250, the other signals exactly on baseline. -/
def outlierMetrics : BehaviorMetrics :=
  { avgTypingInterval := 1000000, mouseMovementCount := 50,
    scrollEventCount := 10, sessionDuration := 60000 }

/-- A mild sample: typing interval 275 against baseline 250 is a 10%
deviation, the other signals exactly on baseline. -/
def mildMetrics : BehaviorMetrics :=
  { avgTypingInterval := 275, mouseMovementCount := 50,
    scrollEventCount := 10, sessionDuration := 60000 }

/-- The empty session store. -/
def noSessions : UserService.SessionStore := fun _ => none

/-- A one-element session store holding an already-ended session. -/
def endedSession : Session :=
  { id := "s1", userId := "1", startTime := 0, lastActivity := 0,
    isActive := false, anomalyScore := 0 }

/-- A store holding exactly the ended session s1. -/
def oneSessionStore : UserService.SessionStore :=
  fun key => if key = "s1" then some endedSession else none

/-! Helper lemmas. -/

theorem jsMin_eq_min (a b : ℚ) : jsMin a b = min a b := by
  rw [jsMin, min_def]

theorem jsMax_eq_max (a b : ℚ) : jsMax a b = max a b := by
  rw [jsMax, max_def]

theorem sqrt_sixteen_hundred : Rat.sqrt 1600 = 40 := by
  have h : (1600 : ℚ) = 40 * 40 := by norm_num
  rw [h, Rat.sqrt_eq]
  norm_num

theorem sqrt_zero_rat : Rat.sqrt 0 = 0 := by
  have h : (0 : ℚ) = 0 * 0 := by norm_num
  rw [h, Rat.sqrt_eq]
  norm_num

/-- Any clamped value jsMin 100 (jsMax 0 x) lies in [0, 100]. -/
theorem clamp_mem_Icc (x : ℚ) : 0 ≤ jsMin 100 (jsMax 0 x) ∧ jsMin 100 (jsMax 0 x) ≤ 100 := by
  rw [jsMin_eq_min, jsMax_eq_max]
  constructor
  · exact le_min (by norm_num) (le_max_left 0 x)
  · exact min_le_left 100 _

/-- The clamp is the identity on [0, 100]. -/
theorem clamp_eq_self (x : ℚ) (h0 : 0 ≤ x) (h1 : x ≤ 100) :
    jsMin 100 (jsMax 0 x) = x := by
  rw [jsMin_eq_min, jsMax_eq_max, max_eq_right h0, min_eq_right h1]

/-- Every per-signal z-score anomaly score is nonnegative. -/
theorem zScoreAnomaly_nonneg (current : ℚ) (history : List ℚ) :
    0 ≤ MLService.zScoreAnomaly current history := by
  simp only [MLService.zScoreAnomaly]
  split_ifs with h1 h2
  · exact le_refl 0
  · exact le_refl 0
  · rw [jsMin_eq_min]
    refine le_min (by norm_num) ?_
    have hnn : 0 ≤ Rat.sqrt ((history.map
        (fun val => (val - history.sum / (history.length : ℚ)) ^ 2)).sum /
        (history.length : ℚ)) := Rat.sqrt_nonneg _
    exact mul_nonneg (div_nonneg (abs_nonneg _) hnn) (by norm_num : (0:ℚ) ≤ 20)

/-- Every per-signal z-score anomaly score is at most 100. -/
theorem zScoreAnomaly_le_hundred (current : ℚ) (history : List ℚ) :
    MLService.zScoreAnomaly current history ≤ 100 := by
  simp only [MLService.zScoreAnomaly]
  split_ifs with h1 h2
  · norm_num
  · norm_num
  · rw [jsMin_eq_min]
    exact min_le_left 100 _

/-- The weighted z-score combination of three per-signal scores in
[0,100] with weights 0.4 / 0.3 / 0.3 lies in [0,100]. -/
theorem ml_weighted_bounds (t mo sc : ℚ)
    (ht0 : 0 ≤ t) (ht1 : t ≤ 100) (hm0 : 0 ≤ mo) (hm1 : mo ≤ 100)
    (hs0 : 0 ≤ sc) (hs1 : sc ≤ 100) :
    0 ≤ t * (2/5) + mo * (3/10) + sc * (3/10) ∧
      t * (2/5) + mo * (3/10) + sc * (3/10) ≤ 100 := by
  constructor <;> nlinarith

/-- Closed form of n EMA steps with fixed sample v and rate 0.1. -/
theorem ema_iterate_closed_form (b v : ℚ) (n : ℕ) :
    (fun x => BehaviorAnalysisService.updateBaseline x v (1/10))^[n] b =
      v + (9/10)^n * (b - v) := by
  induction n with
  | zero => simp
  | succ k ih =>
      rw [Function.iterate_succ_apply', ih, BehaviorAnalysisService.updateBaseline]
      ring

/-- Repeated scalar profile updates never touch userId or the anomaly
threshold. -/
theorem updateProfile_foldl_frame (rate : ℚ) (now : ℕ)
    (samples : List BehaviorMetrics) :
    ∀ p : BehaviorProfile,
      (samples.foldl
        (fun prof sm => BehaviorAnalysisService.updateProfile prof sm rate now)
        p).userId = p.userId ∧
      (samples.foldl
        (fun prof sm => BehaviorAnalysisService.updateProfile prof sm rate now)
        p).anomalyThreshold = p.anomalyThreshold := by
  induction samples with
  | nil => intro p; exact ⟨rfl, rfl⟩
  | cons hd tl ih =>
      intro p
      rw [List.foldl_cons]
      exact ⟨(ih _).1.trans rfl, (ih _).2.trans rfl⟩

/-! Claim theorems. -/

/-- Claim C2: for each of the three signals (typing interval, mouse
count, scroll count), the scalar per-signal deviation score equals
min(100, |current - baseline| / baseline * 100) when the baseline is
positive, and 0 when the baseline is 0 (the zero denominator is guarded);
the mouse and scroll scorers compute the same formula as the typing one. -/
theorem C2_scalar_deviation_formula (current baseline : ℚ) :
    (0 < baseline →
      BehaviorAnalysisService.analyzeTypingBehavior current baseline =
        min 100 (|current - baseline| / baseline * 100)) ∧
    (baseline = 0 →
      BehaviorAnalysisService.analyzeTypingBehavior current baseline = 0) ∧
    BehaviorAnalysisService.analyzeMouseBehavior current baseline =
      BehaviorAnalysisService.analyzeTypingBehavior current baseline ∧
    BehaviorAnalysisService.analyzeScrollBehavior current baseline =
      BehaviorAnalysisService.analyzeTypingBehavior current baseline := by
  refine ⟨?_, ?_, ?_, ?_⟩
  · intro h
    simp only [BehaviorAnalysisService.analyzeTypingBehavior,
      if_neg (ne_of_gt h), jsMin_eq_min]
  · intro h
    simp only [BehaviorAnalysisService.analyzeTypingBehavior, if_pos h]
  · simp only [BehaviorAnalysisService.analyzeMouseBehavior,
      BehaviorAnalysisService.analyzeTypingBehavior]
  · simp only [BehaviorAnalysisService.analyzeScrollBehavior,
      BehaviorAnalysisService.analyzeTypingBehavior]

/-- Witness for C2 at current 275, baseline 250. -/
theorem C2_scalar_deviation_formula_witness :
    (0 : ℚ) < 250 ∧
    BehaviorAnalysisService.analyzeTypingBehavior 275 250 =
      min 100 (|(275 : ℚ) - 250| / 250 * 100) :=
  ⟨by norm_num, (C2_scalar_deviation_formula 275 250).1 (by norm_num)⟩

/-- Claim C3: in both scorer variants the recommendation is derived from
the returned overall score by the shared threshold rule: pass below 30,
reauthenticate from 30 up to (excluding) 70, lock from 70; the
boundaries are exact: 29.9 passes, 30.0 and 69.9 reauthenticate, 70.0
locks. -/
theorem C3_recommendation_thresholds :
    (∀ (m : BehaviorMetrics) (p : BehaviorProfile),
      (BehaviorAnalysisService.analyzeBehavior m p).recommendation =
        recommendationFor (BehaviorAnalysisService.analyzeBehavior m p).score) ∧
    (∀ (p : MLService.MLUserProfile) (m : BehaviorMetrics) (now : ℕ),
      ((MLService.analyzeBehavior p m now).1).recommendation =
        recommendationFor ((MLService.analyzeBehavior p m now).1).score) ∧
    (∀ s : ℚ, s < 30 → recommendationFor s = Recommendation.pass) ∧
    (∀ s : ℚ, 30 ≤ s → s < 70 →
      recommendationFor s = Recommendation.reauthenticate) ∧
    (∀ s : ℚ, 70 ≤ s → recommendationFor s = Recommendation.lock) ∧
    recommendationFor (299/10) = Recommendation.pass ∧
    recommendationFor 30 = Recommendation.reauthenticate ∧
    recommendationFor (699/10) = Recommendation.reauthenticate ∧
    recommendationFor 70 = Recommendation.lock := by
  refine ⟨?_, ?_, ?_, ?_, ?_, ?_, ?_, ?_, ?_⟩
  · intro m p
    rfl
  · intro p m now
    have ht0 := zScoreAnomaly_nonneg m.avgTypingInterval
      (MLService.updateProfile p m now).typingIntervals
    have ht1 := zScoreAnomaly_le_hundred m.avgTypingInterval
      (MLService.updateProfile p m now).typingIntervals
    have hm0 := zScoreAnomaly_nonneg m.mouseMovementCount
      (MLService.updateProfile p m now).mouseMovements
    have hm1 := zScoreAnomaly_le_hundred m.mouseMovementCount
      (MLService.updateProfile p m now).mouseMovements
    have hs0 := zScoreAnomaly_nonneg m.scrollEventCount
      (MLService.updateProfile p m now).scrollEvents
    have hs1 := zScoreAnomaly_le_hundred m.scrollEventCount
      (MLService.updateProfile p m now).scrollEvents
    have hb := ml_weighted_bounds _ _ _ ht0 ht1 hm0 hm1 hs0 hs1
    simp only [MLService.analyzeBehavior, MLService.scoreAgainst,
      MLService.calculateTypingAnomaly, MLService.calculateMouseAnomaly,
      MLService.calculateScrollAnomaly]
    rw [clamp_eq_self _ hb.1 hb.2]
  · intro s h
    rw [recommendationFor, if_pos h]
  · intro s h30 h70
    rw [recommendationFor, if_neg (not_lt.2 h30), if_pos h70]
  · intro s h
    rw [recommendationFor, if_neg (not_lt.2 (by linarith)), if_neg (not_lt.2 h)]
  · norm_num [recommendationFor]
  · norm_num [recommendationFor]
  · norm_num [recommendationFor]
  · norm_num [recommendationFor]

/-- Witness for C3 at the boundary score 29.9. -/
theorem C3_recommendation_thresholds_witness :
    (299/10 : ℚ) < 30 ∧ recommendationFor (299/10) = Recommendation.pass :=
  ⟨by norm_num, C3_recommendation_thresholds.2.2.1 (299/10) (by norm_num)⟩

/-- Counterexample to claim C5 as stated: the extreme outlier sample
(typing interval 1,000,000 against baseline 250, other signals on
baseline) yields overall score 40, not a saturated 100, and the
recommendation is reauthenticate, not lock. -/
theorem C5_counterexample :
    (BehaviorAnalysisService.analyzeBehavior outlierMetrics referenceProfile).score = 40 ∧
    (40 : ℚ) ≠ 100 ∧
    (BehaviorAnalysisService.analyzeBehavior outlierMetrics referenceProfile).recommendation =
      Recommendation.reauthenticate ∧
    Recommendation.reauthenticate ≠ Recommendation.lock := by
  refine ⟨?_, by norm_num, ?_, by decide⟩
  · norm_num [BehaviorAnalysisService.analyzeBehavior,
      BehaviorAnalysisService.analyzeTypingBehavior,
      BehaviorAnalysisService.analyzeMouseBehavior,
      BehaviorAnalysisService.analyzeScrollBehavior,
      BehaviorAnalysisService.analyzeSessionBehavior, jsMin, jsMax,
      recommendationFor, outlierMetrics, referenceProfile]
  · norm_num [BehaviorAnalysisService.analyzeBehavior,
      BehaviorAnalysisService.analyzeTypingBehavior,
      BehaviorAnalysisService.analyzeMouseBehavior,
      BehaviorAnalysisService.analyzeScrollBehavior,
      BehaviorAnalysisService.analyzeSessionBehavior, jsMin, jsMax,
      recommendationFor, outlierMetrics, referenceProfile]

/-- Claim C5 amended: the overall score of either scorer variant always
lies in [0,100]; the extreme typing outlier saturates the per-signal
typing deviation score at 100, which enters the weighted sum with weight
0.4, so with the other signals on baseline the overall score is 40 and
the recommendation is reauthenticate. -/
theorem C5_amended_clamp_and_outlier :
    (∀ (m : BehaviorMetrics) (p : BehaviorProfile),
      0 ≤ (BehaviorAnalysisService.analyzeBehavior m p).score ∧
      (BehaviorAnalysisService.analyzeBehavior m p).score ≤ 100) ∧
    (∀ (p : MLService.MLUserProfile) (m : BehaviorMetrics) (now : ℕ),
      0 ≤ ((MLService.analyzeBehavior p m now).1).score ∧
      ((MLService.analyzeBehavior p m now).1).score ≤ 100) ∧
    BehaviorAnalysisService.analyzeTypingBehavior 1000000 250 = 100 ∧
    (BehaviorAnalysisService.analyzeBehavior outlierMetrics referenceProfile).score = 40 ∧
    (BehaviorAnalysisService.analyzeBehavior outlierMetrics referenceProfile).recommendation =
      Recommendation.reauthenticate := by
  refine ⟨?_, ?_, ?_, ?_, ?_⟩
  · intro m p
    exact clamp_mem_Icc _
  · intro p m now
    exact clamp_mem_Icc _
  · norm_num [BehaviorAnalysisService.analyzeTypingBehavior, jsMin]
  · norm_num [BehaviorAnalysisService.analyzeBehavior,
      BehaviorAnalysisService.analyzeTypingBehavior,
      BehaviorAnalysisService.analyzeMouseBehavior,
      BehaviorAnalysisService.analyzeScrollBehavior,
      BehaviorAnalysisService.analyzeSessionBehavior, jsMin, jsMax,
      recommendationFor, outlierMetrics, referenceProfile]
  · norm_num [BehaviorAnalysisService.analyzeBehavior,
      BehaviorAnalysisService.analyzeTypingBehavior,
      BehaviorAnalysisService.analyzeMouseBehavior,
      BehaviorAnalysisService.analyzeScrollBehavior,
      BehaviorAnalysisService.analyzeSessionBehavior, jsMin, jsMax,
      recommendationFor, outlierMetrics, referenceProfile]

/-- Claim C6: one EMA baseline update step with rate 0.1 returns
b*(1-0.1) + v*0.1 (and the two updateBaseline implementations agree);
the step lands inside [min(b,v), max(b,v)]; iterating with the same
sample v the distance to v never grows, the iterates never leave
[min(b,v), max(b,v)] (no overshoot), and they move monotonically toward
v from either side. -/
theorem C6_ema_convergence (b v : ℚ) :
    BehaviorAnalysisService.updateBaseline b v (1/10) =
      b * (1 - 1/10) + v * (1/10) ∧
    MLService.updateBaseline b v (1/10) =
      BehaviorAnalysisService.updateBaseline b v (1/10) ∧
    min b v ≤ BehaviorAnalysisService.updateBaseline b v (1/10) ∧
    BehaviorAnalysisService.updateBaseline b v (1/10) ≤ max b v ∧
    (∀ n : ℕ,
      |(fun x => BehaviorAnalysisService.updateBaseline x v (1/10))^[n+1] b - v| ≤
        |(fun x => BehaviorAnalysisService.updateBaseline x v (1/10))^[n] b - v|) ∧
    (∀ n : ℕ,
      min b v ≤ (fun x => BehaviorAnalysisService.updateBaseline x v (1/10))^[n] b ∧
      (fun x => BehaviorAnalysisService.updateBaseline x v (1/10))^[n] b ≤ max b v) ∧
    (b ≤ v → ∀ n : ℕ,
      (fun x => BehaviorAnalysisService.updateBaseline x v (1/10))^[n] b ≤
        (fun x => BehaviorAnalysisService.updateBaseline x v (1/10))^[n+1] b) ∧
    (v ≤ b → ∀ n : ℕ,
      (fun x => BehaviorAnalysisService.updateBaseline x v (1/10))^[n+1] b ≤
        (fun x => BehaviorAnalysisService.updateBaseline x v (1/10))^[n] b) := by
  have hstep : ∀ n : ℕ,
      (fun x => BehaviorAnalysisService.updateBaseline x v (1/10))^[n] b =
        v + (9/10)^n * (b - v) := ema_iterate_closed_form b v
  have hpow0 : ∀ n : ℕ, (0:ℚ) ≤ (9/10)^n := fun n => by positivity
  have hpow1 : ∀ n : ℕ, ((9:ℚ)/10)^n ≤ 1 :=
    fun n => pow_le_one₀ (by norm_num) (by norm_num)
  refine ⟨?_, ?_, ?_, ?_, ?_, ?_, ?_, ?_⟩
  · rfl
  · rfl
  · have h1 := hstep 1
    simp only [Function.iterate_one] at h1
    rw [h1]
    rcases le_total b v with h | h
    · rw [min_eq_left h]
      nlinarith [hpow0 1, hpow1 1]
    · rw [min_eq_right h]
      nlinarith [hpow0 1, hpow1 1]
  · have h1 := hstep 1
    simp only [Function.iterate_one] at h1
    rw [h1]
    rcases le_total b v with h | h
    · rw [max_eq_right h]
      nlinarith [hpow0 1, hpow1 1]
    · rw [max_eq_left h]
      nlinarith [hpow0 1, hpow1 1]
  · intro n
    rw [hstep n, hstep (n+1)]
    have he : ∀ m : ℕ, |v + (9/10)^m * (b - v) - v| = (9/10)^m * |b - v| := by
      intro m
      rw [add_sub_cancel_left, abs_mul, abs_pow,
        abs_of_pos (show (0:ℚ) < 9/10 by norm_num)]
    rw [he n, he (n+1)]
    exact mul_le_mul_of_nonneg_right
      (pow_le_pow_of_le_one (by norm_num) (by norm_num) (Nat.le_succ n))
      (abs_nonneg _)
  · intro n
    rw [hstep n]
    rcases le_total b v with h | h
    · rw [min_eq_left h, max_eq_right h]
      constructor
      · nlinarith [hpow0 n, hpow1 n]
      · nlinarith [hpow0 n, hpow1 n]
    · rw [min_eq_right h, max_eq_left h]
      constructor
      · nlinarith [hpow0 n, hpow1 n]
      · nlinarith [hpow0 n, hpow1 n]
  · intro h n
    rw [hstep n, hstep (n+1), pow_succ]
    nlinarith [mul_nonneg (hpow0 n) (sub_nonneg.2 h)]
  · intro h n
    rw [hstep n, hstep (n+1), pow_succ]
    nlinarith [mul_nonneg (hpow0 n) (sub_nonneg.2 h)]

/-- Witness for C6: starting at baseline 0 with constant sample 10, the
iterates increase. -/
theorem C6_ema_convergence_witness :
    (0 : ℚ) ≤ 10 ∧
    (fun x => BehaviorAnalysisService.updateBaseline x 10 (1/10))^[1] 0 ≤
      (fun x => BehaviorAnalysisService.updateBaseline x 10 (1/10))^[2] 0 :=
  ⟨by norm_num, (C6_ema_convergence 0 10).2.2.2.2.2.2.1 (by norm_num) 1⟩

/-- Claim C10: the scalar profile update changes only the three baseline
fields and lastUpdated; userId and anomalyThreshold are carried over
unchanged, and survive any number of update steps. -/
theorem C10_profile_update_frame (p : BehaviorProfile) (m : BehaviorMetrics)
    (rate : ℚ) (now : ℕ) :
    (BehaviorAnalysisService.updateProfile p m rate now).userId = p.userId ∧
    (BehaviorAnalysisService.updateProfile p m rate now).anomalyThreshold =
      p.anomalyThreshold ∧
    (BehaviorAnalysisService.updateProfile p m rate now).baselineTypingInterval =
      BehaviorAnalysisService.updateBaseline p.baselineTypingInterval
        m.avgTypingInterval rate ∧
    (BehaviorAnalysisService.updateProfile p m rate now).baselineMouseActivity =
      BehaviorAnalysisService.updateBaseline p.baselineMouseActivity
        m.mouseMovementCount rate ∧
    (BehaviorAnalysisService.updateProfile p m rate now).baselineScrollPattern =
      BehaviorAnalysisService.updateBaseline p.baselineScrollPattern
        m.scrollEventCount rate ∧
    (BehaviorAnalysisService.updateProfile p m rate now).lastUpdated = now ∧
    (∀ samples : List BehaviorMetrics,
      (samples.foldl
        (fun prof sm => BehaviorAnalysisService.updateProfile prof sm rate now)
        p).userId = p.userId ∧
      (samples.foldl
        (fun prof sm => BehaviorAnalysisService.updateProfile prof sm rate now)
        p).anomalyThreshold = p.anomalyThreshold) :=
  ⟨rfl, rfl, rfl, rfl, rfl, rfl, fun samples => updateProfile_foldl_frame rate now samples p⟩

/-- Counterexample to claim C1 as stated: in the z-score variant the
profile update runs before scoring. On a profile whose three histories
each hold four samples of 100 and a sample with typing interval 200, the
call returns score 16 and confidence 0.6, while scoring against the
pre-update state (histories of length 4 < 5) would return score 0 and
confidence 0.3. -/
theorem C1_counterexample :
    (MLService.analyzeBehavior fourProfile jumpMetrics 0).1.confidence = 3/5 ∧
    (MLService.scoreAgainst fourProfile jumpMetrics).confidence = 3/10 ∧
    (MLService.analyzeBehavior fourProfile jumpMetrics 0).1.score = 16 ∧
    (MLService.scoreAgainst fourProfile jumpMetrics).score = 0 ∧
    (MLService.analyzeBehavior fourProfile jumpMetrics 0).1 ≠
      MLService.scoreAgainst fourProfile jumpMetrics := by
  have h1 : (MLService.analyzeBehavior fourProfile jumpMetrics 0).1.confidence = 3/5 := by
    norm_num [MLService.analyzeBehavior, MLService.scoreAgainst,
      MLService.updateProfile, MLService.sliceLast, MLService.updateBaseline,
      MLService.calculateConfidence, fourProfile, jumpMetrics]
  have h2 : (MLService.scoreAgainst fourProfile jumpMetrics).confidence = 3/10 := by
    norm_num [MLService.scoreAgainst, MLService.calculateConfidence,
      fourProfile, jumpMetrics]
  have h3 : (MLService.analyzeBehavior fourProfile jumpMetrics 0).1.score = 16 := by
    norm_num [MLService.analyzeBehavior, MLService.scoreAgainst,
      MLService.updateProfile, MLService.sliceLast, MLService.updateBaseline,
      MLService.calculateTypingAnomaly, MLService.calculateMouseAnomaly,
      MLService.calculateScrollAnomaly, MLService.zScoreAnomaly,
      MLService.calculateConfidence, jsMin, jsMax, recommendationFor,
      sqrt_sixteen_hundred, sqrt_zero_rat, fourProfile, jumpMetrics]
  have h4 : (MLService.scoreAgainst fourProfile jumpMetrics).score = 0 := by
    norm_num [MLService.scoreAgainst, MLService.calculateTypingAnomaly,
      MLService.calculateMouseAnomaly, MLService.calculateScrollAnomaly,
      MLService.zScoreAnomaly, MLService.calculateConfidence, jsMin, jsMax,
      recommendationFor, fourProfile, jumpMetrics]
  refine ⟨h1, h2, h3, h4, fun h => ?_⟩
  rw [h, h4] at h3
  norm_num at h3

/-- Claim C1 amended: the scalar variant scores against the pre-update
profile — the POST /analyze pipeline computes the analysis from the
stored profile as it was on entry and only afterwards applies the EMA
update — while the z-score variant updates the profile (history append
and EMA) first and computes every score, the confidence and the factors
against the already-updated state. -/
theorem C1_amended_update_ordering :
    (∀ (m : BehaviorMetrics) (p : BehaviorProfile) (sid : Option String)
        (st : UserService.SessionStore) (flags : List FlagLog) (now : ℕ),
      (BehaviorRoutes.analyzeHandler p m sid st flags now).1 =
        BehaviorAnalysisService.analyzeBehavior m p ∧
      (BehaviorRoutes.analyzeHandler p m sid st flags now).2.1 =
        BehaviorAnalysisService.updateProfile p m (1/10) now) ∧
    (∀ (p : MLService.MLUserProfile) (m : BehaviorMetrics) (now : ℕ),
      (MLService.analyzeBehavior p m now).1 =
        MLService.scoreAgainst (MLService.updateProfile p m now) m ∧
      (MLService.analyzeBehavior p m now).2 = MLService.updateProfile p m now) :=
  ⟨fun _ _ _ _ _ _ => ⟨rfl, rfl⟩, fun _ _ _ => ⟨rfl, rfl⟩⟩

/-- Counterexample to claim C4 as stated: in the scalar variant a factor
is pushed whenever the per-signal score is positive, not only above 30.
A 10% typing deviation (score 10, not exceeding 30) still produces a
typing factor entry. -/
theorem C4_counterexample :
    BehaviorAnalysisService.analyzeTypingBehavior
      mildMetrics.avgTypingInterval referenceProfile.baselineTypingInterval = 10 ∧
    ¬ (10 : ℚ) > 30 ∧
    (BehaviorAnalysisService.analyzeBehavior mildMetrics referenceProfile).factors =
      [(FactorSignal.typing, 10)] := by
  refine ⟨?_, by norm_num, ?_⟩
  · norm_num [BehaviorAnalysisService.analyzeTypingBehavior, jsMin,
      mildMetrics, referenceProfile]
  · norm_num [BehaviorAnalysisService.analyzeBehavior,
      BehaviorAnalysisService.analyzeTypingBehavior,
      BehaviorAnalysisService.analyzeMouseBehavior,
      BehaviorAnalysisService.analyzeScrollBehavior,
      BehaviorAnalysisService.analyzeSessionBehavior, jsMin, jsMax,
      recommendationFor, mildMetrics, referenceProfile]

/-- Claim C4 amended: the factors list is the ordered list
typing, mouse, scroll (, session in the scalar variant) filtered by a
threshold on the per-signal score — strictly above 0 in the scalar
variant, strictly above 30 in the z-score variant. -/
theorem C4_amended_factor_lists :
    (∀ (m : BehaviorMetrics) (p : BehaviorProfile),
      (BehaviorAnalysisService.analyzeBehavior m p).factors =
        ([(FactorSignal.typing,
            BehaviorAnalysisService.analyzeTypingBehavior
              m.avgTypingInterval p.baselineTypingInterval),
          (FactorSignal.mouse,
            BehaviorAnalysisService.analyzeMouseBehavior
              m.mouseMovementCount p.baselineMouseActivity),
          (FactorSignal.scroll,
            BehaviorAnalysisService.analyzeScrollBehavior
              m.scrollEventCount p.baselineScrollPattern),
          (FactorSignal.session,
            BehaviorAnalysisService.analyzeSessionBehavior
              m.sessionDuration)]).filter (fun f => decide (0 < f.2))) ∧
    (∀ (p : MLService.MLUserProfile) (m : BehaviorMetrics) (now : ℕ),
      ((MLService.analyzeBehavior p m now).1).factors =
        ([(FactorSignal.typing,
            MLService.calculateTypingAnomaly m.avgTypingInterval
              (MLService.updateProfile p m now)),
          (FactorSignal.mouse,
            MLService.calculateMouseAnomaly m.mouseMovementCount
              (MLService.updateProfile p m now)),
          (FactorSignal.scroll,
            MLService.calculateScrollAnomaly m.scrollEventCount
              (MLService.updateProfile p m now))]).filter
          (fun f => decide (30 < f.2))) := by
  constructor
  · intro m p
    simp only [BehaviorAnalysisService.analyzeBehavior]
    by_cases h1 : 0 < BehaviorAnalysisService.analyzeTypingBehavior
      m.avgTypingInterval p.baselineTypingInterval <;>
    by_cases h2 : 0 < BehaviorAnalysisService.analyzeMouseBehavior
      m.mouseMovementCount p.baselineMouseActivity <;>
    by_cases h3 : 0 < BehaviorAnalysisService.analyzeScrollBehavior
      m.scrollEventCount p.baselineScrollPattern <;>
    by_cases h4 : 0 < BehaviorAnalysisService.analyzeSessionBehavior
      m.sessionDuration <;>
    simp [List.filter, h1, h2, h3, h4]
  · intro p m now
    simp only [MLService.analyzeBehavior, MLService.scoreAgainst]
    by_cases h1 : 30 < MLService.calculateTypingAnomaly
      m.avgTypingInterval (MLService.updateProfile p m now) <;>
    by_cases h2 : 30 < MLService.calculateMouseAnomaly
      m.mouseMovementCount (MLService.updateProfile p m now) <;>
    by_cases h3 : 30 < MLService.calculateScrollAnomaly
      m.scrollEventCount (MLService.updateProfile p m now) <;>
    simp [List.filter, h1, h2, h3]

/-- Counterexample to claim C7 as stated: an analysis call made while the
user's three histories hold exactly 4 paired samples returns confidence
0.6, not 0.3, because the profile update appends the new sample before
the confidence is computed. -/
theorem C7_counterexample :
    (uniformProfile 4).typingIntervals.length = 4 ∧
    (uniformProfile 4).mouseMovements.length = 4 ∧
    (uniformProfile 4).scrollEvents.length = 4 ∧
    ((MLService.analyzeBehavior (uniformProfile 4) jumpMetrics 0).1).confidence = 3/5 ∧
    (3/5 : ℚ) ≠ 3/10 := by
  refine ⟨by simp [uniformProfile], by simp [uniformProfile],
    by simp [uniformProfile], ?_, by norm_num⟩
  norm_num [MLService.analyzeBehavior, MLService.scoreAgainst,
    MLService.updateProfile, MLService.sliceLast, MLService.updateBaseline,
    MLService.calculateConfidence, uniformProfile, jumpMetrics, min_self]

/-- Claim C7 amended: the confidence of a z-score analysis call is
calculateConfidence applied to the already-updated profile; the tiers of
calculateConfidence are below 5 paired samples 0.3, below 20 paired
samples 0.6, below 50 paired samples 0.8 and 0.95 otherwise; hence a
call made with exactly 4, 19, 49 or 50 paired samples in each history
returns 0.6, 0.8, 0.95 and 0.95 respectively. -/
theorem C7_amended_confidence :
    (∀ (p : MLService.MLUserProfile) (m : BehaviorMetrics) (now : ℕ),
      ((MLService.analyzeBehavior p m now).1).confidence =
        MLService.calculateConfidence (MLService.updateProfile p m now)) ∧
    (∀ p : MLService.MLUserProfile,
      (min p.typingIntervals.length
          (min p.mouseMovements.length p.scrollEvents.length) < 5 →
        MLService.calculateConfidence p = 3/10) ∧
      (5 ≤ min p.typingIntervals.length
          (min p.mouseMovements.length p.scrollEvents.length) →
        min p.typingIntervals.length
          (min p.mouseMovements.length p.scrollEvents.length) < 20 →
        MLService.calculateConfidence p = 3/5) ∧
      (20 ≤ min p.typingIntervals.length
          (min p.mouseMovements.length p.scrollEvents.length) →
        min p.typingIntervals.length
          (min p.mouseMovements.length p.scrollEvents.length) < 50 →
        MLService.calculateConfidence p = 4/5) ∧
      (50 ≤ min p.typingIntervals.length
          (min p.mouseMovements.length p.scrollEvents.length) →
        MLService.calculateConfidence p = 19/20)) ∧
    ((MLService.analyzeBehavior (uniformProfile 4) jumpMetrics 0).1).confidence = 3/5 ∧
    ((MLService.analyzeBehavior (uniformProfile 19) jumpMetrics 0).1).confidence = 4/5 ∧
    ((MLService.analyzeBehavior (uniformProfile 49) jumpMetrics 0).1).confidence = 19/20 ∧
    ((MLService.analyzeBehavior (uniformProfile 50) jumpMetrics 0).1).confidence = 19/20 := by
  refine ⟨fun p m now => rfl, ?_, ?_, ?_, ?_, ?_⟩
  · intro p
    refine ⟨?_, ?_, ?_, ?_⟩
    · intro h
      rw [MLService.calculateConfidence]
      simp only [if_pos h]
    · intro h5 h20
      rw [MLService.calculateConfidence]
      simp only [if_neg (Nat.not_lt.2 h5), if_pos h20]
    · intro h20 h50
      rw [MLService.calculateConfidence]
      simp only [if_neg (Nat.not_lt.2 (by omega : 5 ≤ min p.typingIntervals.length
        (min p.mouseMovements.length p.scrollEvents.length))),
        if_neg (Nat.not_lt.2 h20), if_pos h50]
    · intro h50
      rw [MLService.calculateConfidence]
      simp only [if_neg (Nat.not_lt.2 (by omega : 5 ≤ min p.typingIntervals.length
        (min p.mouseMovements.length p.scrollEvents.length))),
        if_neg (Nat.not_lt.2 (by omega : 20 ≤ min p.typingIntervals.length
        (min p.mouseMovements.length p.scrollEvents.length))),
        if_neg (Nat.not_lt.2 h50)]
  · norm_num [MLService.analyzeBehavior, MLService.scoreAgainst,
      MLService.updateProfile, MLService.sliceLast, MLService.updateBaseline,
      MLService.calculateConfidence, uniformProfile, jumpMetrics, min_self]
  · norm_num [MLService.analyzeBehavior, MLService.scoreAgainst,
      MLService.updateProfile, MLService.sliceLast, MLService.updateBaseline,
      MLService.calculateConfidence, uniformProfile, jumpMetrics, min_self]
  · norm_num [MLService.analyzeBehavior, MLService.scoreAgainst,
      MLService.updateProfile, MLService.sliceLast, MLService.updateBaseline,
      MLService.calculateConfidence, uniformProfile, jumpMetrics, min_self]
  · norm_num [MLService.analyzeBehavior, MLService.scoreAgainst,
      MLService.updateProfile, MLService.sliceLast, MLService.updateBaseline,
      MLService.calculateConfidence, uniformProfile, jumpMetrics, min_self]

/-- Witness for C7 at a profile with 10 paired samples per history. -/
theorem C7_amended_confidence_witness :
    5 ≤ min (uniformProfile 10).typingIntervals.length
        (min (uniformProfile 10).mouseMovements.length
          (uniformProfile 10).scrollEvents.length) ∧
    min (uniformProfile 10).typingIntervals.length
        (min (uniformProfile 10).mouseMovements.length
          (uniformProfile 10).scrollEvents.length) < 20 ∧
    MLService.calculateConfidence (uniformProfile 10) = 3/5 := by
  have h5 : 5 ≤ min (uniformProfile 10).typingIntervals.length
      (min (uniformProfile 10).mouseMovements.length
        (uniformProfile 10).scrollEvents.length) := by
    simp [uniformProfile]
  have h20 : min (uniformProfile 10).typingIntervals.length
      (min (uniformProfile 10).mouseMovements.length
        (uniformProfile 10).scrollEvents.length) < 20 := by
    simp [uniformProfile]
  exact ⟨h5, h20, (C7_amended_confidence.2.1 (uniformProfile 10)).2.1 h5 h20⟩

/-- Claim C8: the POST /analyze pipeline appends a new unresolved flag
log entry exactly when the analysis score exceeds 30; the entry's
severity is high above 70, medium above 50 and low otherwise, and its
action string is derived from the recommendation (lock means Session
locked, reauthenticate means Request re-authentication, otherwise
Monitor). -/
theorem C8_flag_log_creation (p : BehaviorProfile) (m : BehaviorMetrics)
    (sid : Option String) (st : UserService.SessionStore)
    (flags : List FlagLog) (now : ℕ) :
    ((BehaviorAnalysisService.analyzeBehavior m p).score ≤ 30 →
      (BehaviorRoutes.analyzeHandler p m sid st flags now).2.2.2 = flags) ∧
    (30 < (BehaviorAnalysisService.analyzeBehavior m p).score →
      (BehaviorRoutes.analyzeHandler p m sid st flags now).2.2.2 =
        flags ++
          [{ sessionId := sid.getD "unknown"
             timestamp := now
             type := "session"
             severity :=
               if 70 < (BehaviorAnalysisService.analyzeBehavior m p).score then
                 Severity.high
               else if 50 < (BehaviorAnalysisService.analyzeBehavior m p).score then
                 Severity.medium
               else Severity.low
             action :=
               match (BehaviorAnalysisService.analyzeBehavior m p).recommendation with
               | Recommendation.lock => "Session locked"
               | Recommendation.reauthenticate => "Request re-authentication"
               | Recommendation.pass => "Monitor"
             resolved := false }]) := by
  constructor
  · intro h
    simp only [BehaviorRoutes.analyzeHandler, BehaviorRoutes.flagStep]
    rw [if_neg (not_lt.2 h)]
  · intro h
    simp only [BehaviorRoutes.analyzeHandler, BehaviorRoutes.flagStep]
    rw [if_pos h]

/-- Witness for C8: the outlier sample scores 40 (> 30) with
recommendation reauthenticate, so one low-severity flag with action
Request re-authentication is appended to an empty flag log. -/
theorem C8_flag_log_creation_witness :
    30 < (BehaviorAnalysisService.analyzeBehavior outlierMetrics referenceProfile).score ∧
    (BehaviorRoutes.analyzeHandler referenceProfile outlierMetrics none
        noSessions [] 0).2.2.2 =
      [{ sessionId := "unknown", timestamp := 0, type := "session",
         severity := Severity.low, action := "Request re-authentication",
         resolved := false }] := by
  have hscore : (BehaviorAnalysisService.analyzeBehavior outlierMetrics
      referenceProfile).score = 40 := by
    norm_num [BehaviorAnalysisService.analyzeBehavior,
      BehaviorAnalysisService.analyzeTypingBehavior,
      BehaviorAnalysisService.analyzeMouseBehavior,
      BehaviorAnalysisService.analyzeScrollBehavior,
      BehaviorAnalysisService.analyzeSessionBehavior, jsMin, jsMax,
      recommendationFor, outlierMetrics, referenceProfile]
  have hrec : (BehaviorAnalysisService.analyzeBehavior outlierMetrics
      referenceProfile).recommendation = Recommendation.reauthenticate := by
    norm_num [BehaviorAnalysisService.analyzeBehavior,
      BehaviorAnalysisService.analyzeTypingBehavior,
      BehaviorAnalysisService.analyzeMouseBehavior,
      BehaviorAnalysisService.analyzeScrollBehavior,
      BehaviorAnalysisService.analyzeSessionBehavior, jsMin, jsMax,
      recommendationFor, outlierMetrics, referenceProfile]
  have h30 : 30 < (BehaviorAnalysisService.analyzeBehavior outlierMetrics
      referenceProfile).score := by
    rw [hscore]
    norm_num
  refine ⟨h30, ?_⟩
  have happ := (C8_flag_log_creation referenceProfile outlierMetrics none
    noSessions [] 0).2 h30
  rw [happ, hscore, hrec]
  norm_num

/-- Claim C9: endSession sets the active flag of a known session to
false, is idempotent, and is a no-op for an unknown id;
updateSessionActivity is a no-op for an unknown id, and on a known
session — active or already ended — overwrites last-activity and the
stored anomaly score, leaving every other session untouched. -/
theorem C9_session_ledger (sessions : UserService.SessionStore)
    (sid : String) (s : Session) (score : ℚ) (now : ℕ) :
    (sessions sid = some s →
      UserService.endSession sessions sid sid =
        some { s with isActive := false }) ∧
    UserService.endSession (UserService.endSession sessions sid) sid =
      UserService.endSession sessions sid ∧
    (sessions sid = none → UserService.endSession sessions sid = sessions) ∧
    (sessions sid = none →
      UserService.updateSessionActivity sessions sid score now = sessions) ∧
    (sessions sid = some s →
      UserService.updateSessionActivity sessions sid score now sid =
        some { s with lastActivity := now, anomalyScore := score }) ∧
    (∀ k : String, k ≠ sid →
      UserService.endSession sessions sid k = sessions k ∧
      UserService.updateSessionActivity sessions sid score now k = sessions k) := by
  refine ⟨?_, ?_, ?_, ?_, ?_, ?_⟩
  · intro h
    simp [UserService.endSession, h]
  · cases hs : sessions sid with
    | none => simp [UserService.endSession, hs]
    | some s0 =>
        funext key
        simp only [UserService.endSession, hs]
        by_cases hk : key = sid <;> simp [hk]
  · intro h
    simp [UserService.endSession, h]
  · intro h
    simp [UserService.updateSessionActivity, h]
  · intro h
    simp [UserService.updateSessionActivity, h]
  · intro k hk
    constructor
    · cases hs : sessions sid with
      | none => simp [UserService.endSession, hs]
      | some s0 => simp [UserService.endSession, hs, hk]
    · cases hs : sessions sid with
      | none => simp [UserService.updateSessionActivity, hs]
      | some s0 => simp [UserService.updateSessionActivity, hs, hk]

/-- Witness for C9: recording activity on the already-ended session s1
still overwrites its last-activity tick and score. -/
theorem C9_session_ledger_witness :
    oneSessionStore "s1" = some endedSession ∧
    UserService.updateSessionActivity oneSessionStore "s1" 42 7 "s1" =
      some { endedSession with lastActivity := 7, anomalyScore := 42 } := by
  have h : oneSessionStore "s1" = some endedSession := by
    simp [oneSessionStore]
  exact ⟨h, (C9_session_ledger oneSessionStore "s1" endedSession 42 7).2.2.2.2.1 h⟩
